import Mathlib

/-!
Verification development for the rag-with-amazon-bedrock-and-pgvector
infrastructure repository.  The CDK stacks are declarative: each stack
constructor is embedded as a pure Lean function from its props to a record
of the resources it declares (queues, lambda functions, event rules, IAM
grants and environment wiring).  The runtime behaviour of the lambda
handlers whose code is not part of the TypeScript sources (the change
detector, the DDL apply step, the callback-URL patcher) is modelled from
the specification where a claim needs it, with the modelling noted on the
definition.
-/

namespace RagSpec

/-- Embedding of cdk.Duration: a wall-clock span measured in seconds. -/
structure Duration where
  seconds : Nat
deriving DecidableEq, Repr

/-- Embedding of cdk.Duration.minutes. -/
def Duration.minutes (n : Nat) : Duration :=
  { seconds := n * 60 }

/-- Embedding of an sqs.Queue construct with the props used by the repo. -/
structure Queue where
  constructId : String
  queueName : String
  visibilityTimeout : Duration
deriving DecidableEq, Repr

/-- The queue URL token exposed by a queue construct. -/
def Queue.queueUrl (q : Queue) : String :=
  "https://sqs.amazonaws.com/" ++ q.queueName

/-- Embedding of a lambda.Function construct: identity, runtime
configuration and the environment variable block. -/
structure LambdaFunction where
  constructId : String
  runtime : String
  handler : String
  timeout : Duration
  environment : List (String × String)
deriving DecidableEq, Repr

/-- A lifecycle event as delivered on the event bus, with the attribute
fields the repository filters on (source, detail.eventSource,
detail.eventName, detail.requestParameters.stackName,
detail.sourceIPAddress) plus the identifying payload. -/
structure ChangeEvent where
  source : String
  detailEventSource : String
  detailEventName : String
  detailRequestParametersStackName : String
  detailSourceIPAddress : String
  sourceIdentifier : String
  timestamp : Nat
deriving DecidableEq, Repr

/-- Embedding of an events.Rule event pattern; a field set to none is
absent from the pattern and matches every event. -/
structure EventPattern where
  source : List String
  detailEventSource : List String
  detailEventName : List String
  detailRequestParametersStackName : Option (List String)
  detailSourceIPAddress : Option (List String)
deriving DecidableEq, Repr

/-- An optional pattern field matches a value when the field is absent or
lists the value. -/
def optFieldMatches (value : String) : Option (List String) → Bool
  | none => true
  | some l => l.contains value

/-- EventBridge pattern matching over the attribute fields. -/
def EventPattern.matchesEvent (p : EventPattern) (e : ChangeEvent) : Bool :=
  p.source.contains e.source
    && p.detailEventSource.contains e.detailEventSource
    && p.detailEventName.contains e.detailEventName
    && optFieldMatches e.detailRequestParametersStackName p.detailRequestParametersStackName
    && optFieldMatches e.detailSourceIPAddress p.detailSourceIPAddress

/-- A target wired to an events.Rule (the repo only uses lambda targets). -/
inductive RuleTarget where
  | lambdaFn (constructId : String)
deriving DecidableEq, Repr

/-- Embedding of an events.Rule construct. -/
structure EventRule where
  constructId : String
  eventPattern : EventPattern
  targets : List RuleTarget
deriving DecidableEq, Repr

/-- Embedding of a secretsmanager.Secret construct. -/
structure Secret where
  secretName : String
deriving DecidableEq, Repr

/-- The ARN token exposed by a secret construct. -/
def Secret.secretArn (s : Secret) : String :=
  "arn:aws:secretsmanager:::secret:" ++ s.secretName

/-- Embedding of rds.Credentials: a username together with either a
hard-coded password literal or a reference to a generated secret. -/
structure DBCredentials where
  username : String
  passwordLiteral : Option String
  usesGeneratedSecret : Bool
deriving DecidableEq, Repr

/-- Embedding of rds.Credentials.fromGeneratedSecret: no password literal
appears anywhere; the password lives in a generated secret. -/
def DBCredentials.fromGeneratedSecret (u : String) : DBCredentials :=
  { username := u, passwordLiteral := none, usesGeneratedSecret := true }

/-- Embedding of an rds.DatabaseInstance construct. -/
structure DatabaseInstance where
  constructId : String
  engine : String
  credentials : DBCredentials
  secret : Option Secret
  instanceIdentifier : String
deriving DecidableEq, Repr

/-- Embedding of RDSStack (lib/rds-stack.ts): the postgres instance with
generated-secret credentials, and the database name "postgres". -/
structure RDSStack where
  rdsDBName : String
  dbInstance : DatabaseInstance
deriving DecidableEq, Repr

/-- Constructor of RDSStack, mirroring lib/rds-stack.ts lines 28 and
45-53: dbName is "postgres" and the instance uses
Credentials.fromGeneratedSecret("postgres"), which attaches a generated
secret to the instance. -/
def mkRDSStack : RDSStack :=
  { rdsDBName := "postgres"
    dbInstance :=
      { constructId := "rdsInstance"
        engine := "POSTGRES"
        credentials := DBCredentials.fromGeneratedSecret "postgres"
        secret := some { secretName := "rdsInstance-generated-secret" }
        instanceIdentifier := "rdsInstanceIdentifierToken" } }

/-- The list of regions accepted by BaseInfraStack
(lib/base-infra-stack.ts line 43). -/
def validRegions : List String :=
  ["us-east-1", "us-west-2", "eu-west-2"]

/-- Semantics of the TypeScript expression (v or-else d) over an optional
environment variable: undefined and the empty string are falsy and fall
back to the default. -/
def orDefault (v : Option String) (d : String) : String :=
  match v with
  | none => d
  | some s => if s = "" then d else s

/-- The environment variables read by BaseInfraStack. -/
structure BaseEnv where
  cdkDefaultRegion : Option String
  dockerContainerPlatformArch : Option String
  iamSelfSignedServerCertName : Option String
  cognitoDomainName : Option String
deriving DecidableEq, Repr

/-- Region resolution of lib/base-infra-stack.ts line 44. -/
def resolveRegion (env : BaseEnv) : String :=
  orDefault env.cdkDefaultRegion "us-east-1"

/-- Error thrown on an unsupported region (line 48). -/
def regionErrMsg : String :=
  "Unsupported CDK_DEFAULT_REGION specified"

/-- Error thrown when the certificate name env var is undefined or empty
(line 227). -/
def certErrMsg : String :=
  "Please specify the IAM_SELF_SIGNED_SERVER_CERT_NAME env var"

/-- Error thrown when the Cognito domain env var is undefined or empty
(line 234). -/
def cogErrMsg : String :=
  "Please specify the COGNITO_DOMAIN_NAME env var"

/-- The DDL detection queue (lib/base-infra-stack.ts lines 118-121): name
RDS_DDL_Detection_Queue, visibility timeout 6 minutes. -/
def rdsDdlDetectionQueue : Queue :=
  { constructId := "rdsDdlDetectionQueue"
    queueName := "RDS_DDL_Detection_Queue"
    visibilityTimeout := Duration.minutes 6 }

/-- The change-detector lambda (lines 125-133): python 3.11, timeout 2
minutes, environment carrying only the queue URL it publishes to. -/
def rdsDdlTriggerFn : LambdaFunction :=
  { constructId := "rdsDdlTriggerFn"
    runtime := "PYTHON_3_11"
    handler := "app.lambda_handler"
    timeout := Duration.minutes 2
    environment := [("RDS_DDL_QUEUE_URL", rdsDdlDetectionQueue.queueUrl)] }

/-- The EventBridge rule matching RDS CreateDBInstance calls (lines
138-148), targeting the change-detector lambda. -/
def eventBridgeCreateDBRule : EventRule :=
  { constructId := "eventBridgeCreateDBRule"
    eventPattern :=
      { source := ["aws.rds"]
        detailEventSource := ["rds.amazonaws.com"]
        detailEventName := ["CreateDBInstance"]
        detailRequestParametersStackName := none
        detailSourceIPAddress := none }
    targets := [RuleTarget.lambdaFn "rdsDdlTriggerFn"] }

/-- The pgvector update queue (lines 178-181). -/
def pgVectorUpdateQueue : Queue :=
  { constructId := "pgVectorUpdateQueue"
    queueName := "PGVector_Update_Queue"
    visibilityTimeout := Duration.minutes 5 }

/-- The app-client creation queue (lines 247-250). -/
def appClientCreationQueue : Queue :=
  { constructId := "appClientCreateQueue"
    queueName := "COG_APP_CLIENT_CREATE_QUEUE"
    visibilityTimeout := Duration.minutes 5 }

/-- Token for the user pool id (resolved at deploy time). -/
def userPoolIdToken : String := "token:UserPool.userPoolId"

/-- Token for the app client id (resolved at deploy time). -/
def appClientIdToken : String := "token:WebClient.userPoolClientId"

/-- Token for the load balancer DNS name (resolved at deploy time; its
concrete value may contain upper-case characters). -/
def albDnsNameToken : String := "token:ragAppLb.loadBalancerDnsName"

/-- The callback-URL init lambda (lines 341-352), consuming the app-client
creation queue. -/
def callBackInitFn : LambdaFunction :=
  { constructId := "callBackInit"
    runtime := "PYTHON_3_11"
    handler := "app.lambda_handler"
    timeout := Duration.minutes 2
    environment :=
      [("USER_POOL_ID", userPoolIdToken),
       ("APP_CLIENT_ID", appClientIdToken),
       ("ALB_DNS_NAME", albDnsNameToken),
       ("SQS_QUEUE_URL", appClientCreationQueue.queueUrl)] }

/-- The callback-URL update lambda (lines 361-371). -/
def callBackUpdateFn : LambdaFunction :=
  { constructId := "callBackUpdate"
    runtime := "PYTHON_3_11"
    handler := "app.lambda_handler"
    timeout := Duration.minutes 2
    environment :=
      [("USER_POOL_ID", userPoolIdToken),
       ("APP_CLIENT_ID", appClientIdToken),
       ("ALB_DNS_NAME", albDnsNameToken)] }

/-- The resources declared by BaseInfraStack that later stacks and the
claims consume. -/
structure BaseInfraStack where
  regionPref : String
  pgvectorCollectionName : String
  processedBucketName : String
  rdsDdlTriggerQueue : Queue
  ddlTriggerFn : LambdaFunction
  createDBRule : EventRule
  pgvectorQueue : Queue
  apiKeySecret : Secret
  clientCreationQueue : Queue
  cbInitFn : LambdaFunction
  cbInitFnEventSources : List String
  cbUpdateFn : LambdaFunction
  certName : String
  cognitoDomain : String
deriving DecidableEq, Repr

/-- The resource block of BaseInfraStack once the environment checks have
passed, mirroring lib/base-infra-stack.ts: the collection name is derived
from region and account (line 57); the ddl trigger queue, detector
function and CreateDBInstance rule are wired as in lines 118-148; the
callback-URL init function consumes the app-client creation queue
(lines 356-359). -/
def mkBaseResources (account rgn certName cognitoDomain : String) :
    BaseInfraStack :=
  { regionPref := rgn
    pgvectorCollectionName := "pgvector-collection-" ++ rgn ++ "-" ++ account
    processedBucketName := "token:processedText.bucketName"
    rdsDdlTriggerQueue := rdsDdlDetectionQueue
    ddlTriggerFn := rdsDdlTriggerFn
    createDBRule := eventBridgeCreateDBRule
    pgvectorQueue := pgVectorUpdateQueue
    apiKeySecret := { secretName := "openAiApiKey" }
    clientCreationQueue := appClientCreationQueue
    cbInitFn := callBackInitFn
    cbInitFnEventSources := [appClientCreationQueue.queueName]
    cbUpdateFn := callBackUpdateFn
    certName := certName
    cognitoDomain := cognitoDomain }

/-- The undefined-or-empty test the stack applies to an environment
variable (the TypeScript condition v === undefined or v === empty). -/
def isMissing (v : Option String) : Bool :=
  match v with
  | none => true
  | some s => s == ""

/-- Constructor of BaseInfraStack, mirroring the environment validation of
lib/base-infra-stack.ts: the region check of lines 43-49 (with the falsy
default of line 44), the certificate name check of lines 224-228 and the
Cognito domain check of lines 231-235; each failed check throws. -/
def mkBaseInfraStack (account : String) (env : BaseEnv) :
    Except String BaseInfraStack :=
  if resolveRegion env ∈ validRegions then
    if isMissing env.iamSelfSignedServerCertName then .error certErrMsg
    else if isMissing env.cognitoDomainName then .error cogErrMsg
    else
      .ok (mkBaseResources account (resolveRegion env)
        (env.iamSelfSignedServerCertName.getD "")
        (env.cognitoDomainName.getD ""))
  else .error regionErrMsg

/-- Props of RdsDdlAutomationStack (lib/rds-ddl-automation-stack.ts lines
15-23), with bucket and stack identities reduced to their names. -/
structure RdsDdlAutomationStackProps where
  ddlTriggerQueue : Queue
  rdsInstance : DatabaseInstance
  dbName : String
  ddlSourceS3BucketName : String
  ddlSourceStackName : String
deriving DecidableEq, Repr

/-- The resources and wirings declared by RdsDdlAutomationStack:
the two worker functions, the queue event sources added to each, the
CloudFormation change-set rule with its targets, the ordered list of
constructs passed to rdsInstance.grantConnect, the bucket read grants and
the managed policies attached to each worker role. -/
structure RdsDdlAutomationStack where
  ddlInitDeployFn : LambdaFunction
  ddlInitDeployFnEventSources : List String
  ddlChangeFn : LambdaFunction
  ddlChangeFnEventSources : List String
  cfnChangesetRule : EventRule
  rdsConnectGrants : List String
  s3ReadGrants : List String
  initFnManagedPolicies : List String
  changeFnManagedPolicies : List String
deriving DecidableEq, Repr

/-- Constructor of RdsDdlAutomationStack, mirroring
lib/rds-ddl-automation-stack.ts lines 46-119: the init worker (timeout 3
minutes, lines 46-60) gets the queue as its only event source (lines
63-66); the change worker (timeout 10 minutes, lines 78-92) gets no queue
event source and is instead the target of the ExecuteChangeSet rule
(lines 106-119); rdsInstance.grantConnect is called twice, both times on
the init worker (lines 62 and 100); both workers get bucket read and the
SecretsManagerReadWrite policy, and the change worker additionally gets
AmazonRDSReadOnlyAccess (lines 68-104). -/
def mkRdsDdlAutomationStack (p : RdsDdlAutomationStackProps) :
    RdsDdlAutomationStack :=
  let workerEnv : List (String × String) :=
    [("DB_NAME", p.dbName),
     ("SQS_QUEUE_URL", p.ddlTriggerQueue.queueUrl),
     ("DDL_SOURCE_BUCKET", p.ddlSourceS3BucketName)]
  { ddlInitDeployFn :=
      { constructId := "ddlDeployFn"
        runtime := "FROM_IMAGE"
        handler := "FROM_IMAGE"
        timeout := Duration.minutes 3
        environment := workerEnv }
    ddlInitDeployFnEventSources := [p.ddlTriggerQueue.queueName]
    ddlChangeFn :=
      { constructId := "ddlChangeFn"
        runtime := "FROM_IMAGE"
        handler := "FROM_IMAGE"
        timeout := Duration.minutes 10
        environment := workerEnv }
    ddlChangeFnEventSources := []
    cfnChangesetRule :=
      { constructId := "cfnChangesetRule"
        eventPattern :=
          { source := ["aws.cloudformation"]
            detailEventSource := ["cloudformation.amazonaws.com"]
            detailEventName := ["ExecuteChangeSet"]
            detailRequestParametersStackName := some [p.ddlSourceStackName]
            detailSourceIPAddress := none }
        targets := [RuleTarget.lambdaFn "ddlChangeFn"] }
    rdsConnectGrants := ["ddlDeployFn", "ddlDeployFn"]
    s3ReadGrants := ["ddlDeployFn", "ddlChangeFn"]
    initFnManagedPolicies := ["SecretsManagerReadWrite"]
    changeFnManagedPolicies := ["SecretsManagerReadWrite", "AmazonRDSReadOnlyAccess"] }

/-- Props of PGVectorUpdateStack (lib/pgvector-update-stack.ts lines
14-23). -/
structure PGVectorUpdateStackProps where
  processedBucketName : String
  collectionName : String
  apiKeySecret : Secret
  databaseCreds : String
  triggerQueue : Queue
  dbInstance : DatabaseInstance
deriving DecidableEq, Repr

/-- The resources declared by PGVectorUpdateStack. -/
structure PGVectorUpdateStack where
  pgvectorUpdateFn : LambdaFunction
  pgvectorUpdateFnEventSources : List String
  connectGrants : List String
deriving DecidableEq, Repr

/-- Constructor of PGVectorUpdateStack, mirroring
lib/pgvector-update-stack.ts lines 37-65: the update worker carries the
collection name and the database credential ARN in its environment,
consumes the trigger queue and is granted connect on the instance. -/
def mkPGVectorUpdateStack (p : PGVectorUpdateStackProps) :
    PGVectorUpdateStack :=
  { pgvectorUpdateFn :=
      { constructId := "pgvectorUpdate"
        runtime := "FROM_IMAGE"
        handler := "FROM_IMAGE"
        timeout := Duration.minutes 3
        environment :=
          [("API_KEY_SECRET_NAME", p.apiKeySecret.secretName),
           ("DB_CREDS", p.databaseCreds),
           ("COLLECTION_NAME", p.collectionName),
           ("QUEUE_URL", p.triggerQueue.queueUrl),
           ("NLTK_DATA", "/tmp")] }
    pgvectorUpdateFnEventSources := [p.triggerQueue.queueName]
    connectGrants := ["pgvectorUpdate"] }

/-- Props of RagAppStack (lib/rag-app-stack.ts lines 13-21), with the
region token supplied alongside. -/
structure RagAppStackProps where
  databaseCreds : String
  collectionName : String
  apiKeySecret : Secret
  dbInstance : DatabaseInstance
  region : String
deriving DecidableEq, Repr

/-- The wirings of RagAppStack the claims consume: the container
environment block and the secret resources the task role may read. -/
structure RagAppStack where
  ragContainerEnvironment : List (String × String)
  taskRoleSecretResources : List String
deriving DecidableEq, Repr

/-- Constructor of RagAppStack, mirroring lib/rag-app-stack.ts lines
38-134: the task role reads the database credential secret, and the rag
container environment carries the region, the credential ARN, the
collection name and the api key secret name. -/
def mkRagAppStack (p : RagAppStackProps) : RagAppStack :=
  { ragContainerEnvironment :=
      [("AWS_REGION", p.region),
       ("DB_CREDS", p.databaseCreds),
       ("COLLECTION_NAME", p.collectionName),
       ("API_KEY_SECRET_NAME", p.apiKeySecret.secretName)]
    taskRoleSecretResources := [p.databaseCreds] }

/-- The expression rds.dbInstance.secret?.secretArn or-else "" used twice
in bin/rag-with-amazon-bedrock-and-rds-pgvector.ts (lines 51 and 66). -/
def secretArnOrEmpty (db : DatabaseInstance) : String :=
  match db.secret with
  | some s => s.secretArn
  | none => ""

/-- The stacks assembled by the app entry point downstream of the base
infrastructure stack. -/
structure AppStacks where
  rds : RDSStack
  ddlSourceBucketName : String
  ddlAutomation : RdsDdlAutomationStack
  pgvectorUpdate : PGVectorUpdateStack
  ragStack : RagAppStack
deriving DecidableEq, Repr

/-- The app wiring of bin/rag-with-amazon-bedrock-and-rds-pgvector.ts
downstream of BaseInfraStack: the rds stack, the DDL source bucket named
after the instance identifier (lib/ddl-source-rds-stack.ts line 20), the
DDL automation stack fed the base trigger queue, and the pgvector update
and rag app stacks both fed the one collection name and the one generated
database secret ARN (lines 46-72). -/
def mkAppStacks (b : BaseInfraStack) : AppStacks :=
  let rds := mkRDSStack
  let ddlSourceBucketName := "ddl-source-" ++ rds.dbInstance.instanceIdentifier
  { rds := rds
    ddlSourceBucketName := ddlSourceBucketName
    ddlAutomation :=
      mkRdsDdlAutomationStack
        { ddlTriggerQueue := b.rdsDdlTriggerQueue
          rdsInstance := rds.dbInstance
          dbName := rds.rdsDBName
          ddlSourceS3BucketName := ddlSourceBucketName
          ddlSourceStackName := "ddlSourceStack" }
    pgvectorUpdate :=
      mkPGVectorUpdateStack
        { processedBucketName := b.processedBucketName
          collectionName := b.pgvectorCollectionName
          apiKeySecret := b.apiKeySecret
          databaseCreds := secretArnOrEmpty rds.dbInstance
          triggerQueue := b.pgvectorQueue
          dbInstance := rds.dbInstance }
    ragStack :=
      mkRagAppStack
        { databaseCreds := secretArnOrEmpty rds.dbInstance
          collectionName := b.pgvectorCollectionName
          apiKeySecret := b.apiKeySecret
          dbInstance := rds.dbInstance
          region := b.regionPref } }

/-- A TriggerMessage as placed on the trigger queue: the database
identifier and the request time. -/
structure TriggerMessage where
  databaseIdentifier : String
  requestedAt : Nat
deriving DecidableEq, Repr

/-- A message send attempt made by the change detector: the destination
queue URL and the message body. -/
structure SendAttempt where
  queueUrl : String
  message : TriggerMessage
deriving DecidableEq, Repr

/-- The queue URL the detector publishes to, read from its environment
variable RDS_DDL_QUEUE_URL. -/
def detectorQueueUrl : String :=
  (rdsDdlTriggerFn.environment.lookup "RDS_DDL_QUEUE_URL").getD ""

/-- Modelled from the spec: the change-detector handler
(lambda/rds-ddl-trigger/app.py is not under src/).  Per section 4.1 of the
spec, on each delivered event the detector makes exactly one message send
attempt, holding no state between events and applying no deduplication. -/
def detectorHandleEvent (e : ChangeEvent) : List SendAttempt :=
  [{ queueUrl := detectorQueueUrl
     message :=
       { databaseIdentifier := e.sourceIdentifier
         requestedAt := e.timestamp } }]

/-- The detector pipeline over a stream of lifecycle events: EventBridge
delivers to the detector exactly the events matching the
eventBridgeCreateDBRule pattern, and the detector handles each delivered
event independently. -/
def detectorSendsFor (events : List ChangeEvent) : List SendAttempt :=
  (events.filter
      (fun e => eventBridgeCreateDBRule.eventPattern.matchesEvent e)).flatMap
    detectorHandleEvent

/-- A database schema as the DDL workers affect it: the installed
extensions and the created tables with their column lists. -/
structure Schema where
  extensions : List String
  tables : List (String × List (String × String))
deriving DecidableEq, Repr

/-- The schema of a fresh database target. -/
def emptySchema : Schema :=
  { extensions := [], tables := [] }

/-- Modelled from the spec: the statement forms of the shipped DDL source
(scripts/rds-ddl-sql/rds-ddl.sql is not under src/).  Per the spec
invariant in section 3 every statement is written in guarded creation
form. -/
inductive DDLStatement where
  | createExtensionIfNotExists (name : String)
  | createTableIfNotExists (name : String) (columns : List (String × String))
deriving DecidableEq, Repr

/-- Whether the object a guarded statement would create already exists. -/
def stmtApplied (s : Schema) (st : DDLStatement) : Prop :=
  match st with
  | .createExtensionIfNotExists n => n ∈ s.extensions
  | .createTableIfNotExists n _ => n ∈ s.tables.map Prod.fst

instance (s : Schema) : (st : DDLStatement) → Decidable (stmtApplied s st)
  | .createExtensionIfNotExists n =>
      inferInstanceAs (Decidable (n ∈ s.extensions))
  | .createTableIfNotExists n _ =>
      inferInstanceAs (Decidable (n ∈ s.tables.map Prod.fst))

/-- Execution of one guarded DDL statement against a schema: create the
object when it is absent, leave the schema unchanged when it exists. -/
def execStmt (s : Schema) (st : DDLStatement) : Schema :=
  match st with
  | .createExtensionIfNotExists n =>
      if n ∈ s.extensions then s
      else { s with extensions := n :: s.extensions }
  | .createTableIfNotExists n cols =>
      if n ∈ s.tables.map Prod.fst then s
      else { s with tables := (n, cols) :: s.tables }

/-- The Apply step of the DDL worker: execute the statements of a
DDLDocument in file order. -/
def applyDDL (doc : List DDLStatement) (s : Schema) : Schema :=
  match doc with
  | [] => s
  | st :: rest => applyDDL rest (execStmt s st)

/-- Modelled from the spec: the shipped DDL document, as given by the
section 8 scenario of the spec (the SQL file itself is not under src/). -/
def rdsDdlSqlDocument : List DDLStatement :=
  [DDLStatement.createExtensionIfNotExists "vector",
   DDLStatement.createTableIfNotExists "docs"
     [("id", "uuid"), ("vec", "vector(1536)")]]

/-- The stored integration state of the identity-provider app client the
callback-URL patch worker updates. -/
structure AppClientState where
  callbackUrls : List String
deriving DecidableEq, Repr

/-- Character-wise lower-casing of a hostname. -/
def lowerString (s : String) : String :=
  String.mk (s.data.map Char.toLower)

/-- Modelled from the spec: the callback-URL patch handler
(lambda/call-back-url-init/app.py and lambda/call-back-url-update/app.py
are not under src/).  Per section 4.4 of the spec the patch is a single
update call setting the callback URL to the one built from the
lower-cased load-balancer hostname. -/
def patchCallbackUrl (albDnsName : String) (_s : AppClientState) :
    AppClientState :=
  let lowered := lowerString albDnsName
  { callbackUrls := ["https://" ++ lowered ++ "/oauth2/idpresponse"] }

/-- Concrete automation-stack props used to instantiate counterexamples
and witnesses. -/
def sampleAutomationProps : RdsDdlAutomationStackProps :=
  { ddlTriggerQueue := rdsDdlDetectionQueue
    rdsInstance := mkRDSStack.dbInstance
    dbName := "postgres"
    ddlSourceS3BucketName := "ddl-source-sample"
    ddlSourceStackName := "ddlSourceStack" }

/-- A lifecycle event matching the CreateDBInstance rule pattern. -/
def sampleMatchingEvent : ChangeEvent :=
  { source := "aws.rds"
    detailEventSource := "rds.amazonaws.com"
    detailEventName := "CreateDBInstance"
    detailRequestParametersStackName := ""
    detailSourceIPAddress := "203.0.113.10"
    sourceIdentifier := "rdsInstance"
    timestamp := 1700000000 }

/-- A lifecycle event that does not match the CreateDBInstance rule
pattern (a DeleteDBInstance call). -/
def sampleNonMatchingEvent : ChangeEvent :=
  { source := "aws.rds"
    detailEventSource := "rds.amazonaws.com"
    detailEventName := "DeleteDBInstance"
    detailRequestParametersStackName := ""
    detailSourceIPAddress := "203.0.113.10"
    sourceIdentifier := "rdsInstance"
    timestamp := 1700000001 }

/-- A concrete base environment with every variable well formed. -/
def sampleGoodEnv : BaseEnv :=
  { cdkDefaultRegion := some "us-west-2"
    dockerContainerPlatformArch := none
    iamSelfSignedServerCertName := some "myServerCert"
    cognitoDomainName := some "my-rag-domain" }

/-- A concrete base environment with an unsupported region. -/
def badRegionEnv : BaseEnv :=
  { cdkDefaultRegion := some "eu-central-1"
    dockerContainerPlatformArch := none
    iamSelfSignedServerCertName := some "myServerCert"
    cognitoDomainName := some "my-rag-domain" }

/-- A concrete base environment missing the certificate name. -/
def noCertEnv : BaseEnv :=
  { cdkDefaultRegion := none
    dockerContainerPlatformArch := none
    iamSelfSignedServerCertName := none
    cognitoDomainName := some "my-rag-domain" }

/-- A concrete base environment with an empty Cognito domain. -/
def noCogEnv : BaseEnv :=
  { cdkDefaultRegion := some "us-east-1"
    dockerContainerPlatformArch := none
    iamSelfSignedServerCertName := some "myServerCert"
    cognitoDomainName := some "" }

/-! ### Helper lemmas about the DDL apply semantics -/

/-- A guarded statement whose object already exists is a no-op. -/
theorem execStmt_of_applied {s : Schema} {st : DDLStatement}
    (h : stmtApplied s st) : execStmt s st = s := by
  cases st with
  | createExtensionIfNotExists n =>
      simp only [stmtApplied] at h
      simp [execStmt, h]
  | createTableIfNotExists n cols =>
      simp only [stmtApplied] at h
      simp [execStmt, h]

/-- After executing a guarded statement, its object exists. -/
theorem stmtApplied_execStmt_self (s : Schema) (st : DDLStatement) :
    stmtApplied (execStmt s st) st := by
  cases st with
  | createExtensionIfNotExists n =>
      by_cases h : n ∈ s.extensions <;> simp [execStmt, stmtApplied, h]
  | createTableIfNotExists n cols =>
      by_cases h : n ∈ s.tables.map Prod.fst <;>
        simp [execStmt, stmtApplied, h]

/-- Guarded statements only add extensions, never remove them. -/
theorem mem_extensions_execStmt {s : Schema} {n : String}
    (st : DDLStatement) (h : n ∈ s.extensions) :
    n ∈ (execStmt s st).extensions := by
  cases st with
  | createExtensionIfNotExists m =>
      by_cases hm : m ∈ s.extensions <;>
        simp [execStmt, hm, h, List.mem_cons]
  | createTableIfNotExists m cols =>
      by_cases hm : m ∈ s.tables.map Prod.fst <;> simp [execStmt, hm, h]

/-- Guarded statements only add tables, never remove them. -/
theorem mem_tables_execStmt {s : Schema} {n : String}
    (st : DDLStatement) (h : n ∈ s.tables.map Prod.fst) :
    n ∈ (execStmt s st).tables.map Prod.fst := by
  cases st with
  | createExtensionIfNotExists m =>
      by_cases hm : m ∈ s.extensions <;> simp [execStmt, hm, h]
  | createTableIfNotExists m cols =>
      by_cases hm : m ∈ s.tables.map Prod.fst <;>
        simp [execStmt, hm, h, List.mem_cons]

/-- An already-applied statement stays applied across any execution. -/
theorem stmtApplied_execStmt_mono {s : Schema} {st : DDLStatement}
    (st' : DDLStatement) (h : stmtApplied s st) :
    stmtApplied (execStmt s st') st := by
  cases st with
  | createExtensionIfNotExists n =>
      exact mem_extensions_execStmt st' h
  | createTableIfNotExists n cols =>
      exact mem_tables_execStmt st' h

/-- An already-applied statement stays applied across a whole document. -/
theorem stmtApplied_applyDDL_mono {s : Schema} {st : DDLStatement}
    (doc : List DDLStatement) (h : stmtApplied s st) :
    stmtApplied (applyDDL doc s) st := by
  induction doc generalizing s with
  | nil => exact h
  | cons st' rest ih => exact ih (stmtApplied_execStmt_mono st' h)

/-- After applying a document, every statement of it is applied. -/
theorem applyDDL_all_applied (doc : List DDLStatement) (s : Schema) :
    ∀ st ∈ doc, stmtApplied (applyDDL doc s) st := by
  induction doc generalizing s with
  | nil => intro st hst; cases hst
  | cons st' rest ih =>
      intro st hst
      rcases List.mem_cons.mp hst with h | h
      · subst h
        exact stmtApplied_applyDDL_mono rest (stmtApplied_execStmt_self s st)
      · exact ih (execStmt s st') st h

/-- Applying a document all of whose statements are applied is a no-op. -/
theorem applyDDL_of_all_applied (doc : List DDLStatement) (s : Schema)
    (h : ∀ st ∈ doc, stmtApplied s st) : applyDDL doc s = s := by
  induction doc generalizing s with
  | nil => rfl
  | cons st' rest ih =>
      have h1 : execStmt s st' = s :=
        execStmt_of_applied (h st' (List.mem_cons_self st' rest))
      show applyDDL rest (execStmt s st') = s
      rw [h1]
      exact ih s (fun st hst => h st (List.mem_cons_of_mem st' hst))

/-- Applying any guarded document twice equals applying it once. -/
theorem applyDDL_idem (doc : List DDLStatement) (s : Schema) :
    applyDDL doc (applyDDL doc s) = applyDDL doc s :=
  applyDDL_of_all_applied doc (applyDDL doc s) (applyDDL_all_applied doc s)

/-! ### Claim theorems -/

/-- C1 counterexample: the claim that the DDL trigger queue visibility
window is at least the 10-minute bound of the change-path worker is false
on the code: the queue declares a 6-minute (360 s) visibility window
while the change-path worker declares a 10-minute (600 s) timeout, and
360 < 600. -/
theorem c1_visibility_counterexample :
    rdsDdlDetectionQueue.visibilityTimeout.seconds = 360 ∧
    (mkRdsDdlAutomationStack sampleAutomationProps).ddlChangeFn.timeout.seconds = 600 ∧
    rdsDdlDetectionQueue.visibilityTimeout.seconds <
      (mkRdsDdlAutomationStack sampleAutomationProps).ddlChangeFn.timeout.seconds := by
  refine ⟨rfl, rfl, ?_⟩
  decide

/-- C1 amended: the only worker consuming from the DDL trigger queue is
the init-path worker, whose 3-minute timeout is within the queue's
6-minute visibility window; the change-path worker has no queue event
source, so its 10-minute bound does not constrain the queue. -/
theorem c1_visibility_covers_consumer (p : RdsDdlAutomationStackProps) :
    (mkRdsDdlAutomationStack p).ddlInitDeployFnEventSources =
      [p.ddlTriggerQueue.queueName] ∧
    (mkRdsDdlAutomationStack p).ddlChangeFnEventSources = [] ∧
    (mkRdsDdlAutomationStack p).ddlInitDeployFn.timeout.seconds ≤
      rdsDdlDetectionQueue.visibilityTimeout.seconds := by
  refine ⟨rfl, rfl, ?_⟩
  show (180 : Nat) ≤ 360
  decide

/-- C2 counterexample: the claim that every DDL worker invocation comes
from a dequeued trigger message is false on the code: the change-path
worker is the direct lambda target of the CloudFormation ExecuteChangeSet
rule and has no SQS event source, so its invocations bypass the queue. -/
theorem c2_bypass_counterexample :
    (mkRdsDdlAutomationStack sampleAutomationProps).cfnChangesetRule.targets =
      [RuleTarget.lambdaFn
        (mkRdsDdlAutomationStack sampleAutomationProps).ddlChangeFn.constructId] ∧
    (mkRdsDdlAutomationStack sampleAutomationProps).ddlChangeFnEventSources = [] :=
  ⟨rfl, rfl⟩

/-- C2 amended: the creation-path worker is invoked only through the
trigger queue (its sole event source), while the change-path worker is
invoked directly by the EventBridge rule on CloudFormation
ExecuteChangeSet events, bypassing the queue. -/
theorem c2_trigger_paths (p : RdsDdlAutomationStackProps) :
    (mkRdsDdlAutomationStack p).ddlInitDeployFnEventSources =
      [p.ddlTriggerQueue.queueName] ∧
    (mkRdsDdlAutomationStack p).ddlChangeFnEventSources = [] ∧
    (mkRdsDdlAutomationStack p).cfnChangesetRule.targets =
      [RuleTarget.lambdaFn (mkRdsDdlAutomationStack p).ddlChangeFn.constructId] :=
  ⟨rfl, rfl, rfl⟩

/-- C3: an event failing the CreateDBInstance attribute filter yields no
send attempt; a matching event yields exactly one send attempt; and the
sends for a stream decompose per event, so no state is carried across
events (no deduplication). -/
theorem c3_detector_behavior (e : ChangeEvent) (es : List ChangeEvent) :
    (eventBridgeCreateDBRule.eventPattern.matchesEvent e = false →
      detectorSendsFor [e] = []) ∧
    (eventBridgeCreateDBRule.eventPattern.matchesEvent e = true →
      (detectorSendsFor [e]).length = 1) ∧
    detectorSendsFor (es ++ [e]) = detectorSendsFor es ++ detectorSendsFor [e] := by
  refine ⟨?_, ?_, ?_⟩
  · intro h
    simp [detectorSendsFor, h]
  · intro h
    simp [detectorSendsFor, h, detectorHandleEvent]
  · simp [detectorSendsFor, List.filter_append, List.flatMap_append]

/-- C3 witness: a concrete DeleteDBInstance event produces no send
attempt and a concrete CreateDBInstance event produces exactly one. -/
theorem c3_detector_behavior_witness :
    detectorSendsFor [sampleNonMatchingEvent] = [] ∧
    (detectorSendsFor [sampleMatchingEvent]).length = 1 :=
  ⟨(c3_detector_behavior sampleNonMatchingEvent []).1 (by decide),
   (c3_detector_behavior sampleMatchingEvent []).2.1 (by decide)⟩

/-- C4: the init-path worker has a hard timeout of exactly 3 minutes and
the change-path worker of exactly 10 minutes. -/
theorem c4_worker_timeouts (p : RdsDdlAutomationStackProps) :
    (mkRdsDdlAutomationStack p).ddlInitDeployFn.timeout = Duration.minutes 3 ∧
    (mkRdsDdlAutomationStack p).ddlInitDeployFn.timeout.seconds = 180 ∧
    (mkRdsDdlAutomationStack p).ddlChangeFn.timeout = Duration.minutes 10 ∧
    (mkRdsDdlAutomationStack p).ddlChangeFn.timeout.seconds = 600 :=
  ⟨rfl, rfl, rfl, rfl⟩

/-- C5: applying any DDLDocument twice in sequence yields the same schema
as applying it once, and every statement of the shipped DDL document is
individually idempotent (guarded creation). -/
theorem c5_ddl_idempotent (doc : List DDLStatement) (s : Schema) :
    applyDDL doc (applyDDL doc s) = applyDDL doc s ∧
    (∀ st ∈ rdsDdlSqlDocument, ∀ t : Schema,
      execStmt (execStmt t st) st = execStmt t st) := by
  refine ⟨applyDDL_idem doc s, ?_⟩
  intro st _ t
  exact execStmt_of_applied (stmtApplied_execStmt_self t st)

/-- C5 witness: the shipped document applied twice to a fresh target
equals one application, and its first statement re-executes as a no-op. -/
theorem c5_ddl_idempotent_witness :
    applyDDL rdsDdlSqlDocument (applyDDL rdsDdlSqlDocument emptySchema) =
      applyDDL rdsDdlSqlDocument emptySchema ∧
    execStmt (execStmt emptySchema (DDLStatement.createExtensionIfNotExists "vector"))
        (DDLStatement.createExtensionIfNotExists "vector") =
      execStmt emptySchema (DDLStatement.createExtensionIfNotExists "vector") :=
  ⟨(c5_ddl_idempotent rdsDdlSqlDocument emptySchema).1,
   (c5_ddl_idempotent rdsDdlSqlDocument emptySchema).2
     (DDLStatement.createExtensionIfNotExists "vector") (by decide) emptySchema⟩

/-- C6: the callback-URL patch stores the URL built from the lower-cased
load-balancer hostname (on input ABC123.elb.amazonaws.com it stores the
abc123.elb.amazonaws.com form), and reapplying the patch with the same
hostname leaves the stored callback URL unchanged. -/
theorem c6_callback_patch (h : String) (s : AppClientState) :
    (patchCallbackUrl "ABC123.elb.amazonaws.com" s).callbackUrls =
      ["https://abc123.elb.amazonaws.com/oauth2/idpresponse"] ∧
    patchCallbackUrl h (patchCallbackUrl h s) = patchCallbackUrl h s ∧
    (patchCallbackUrl h s).callbackUrls =
      ["https://" ++ lowerString h ++ "/oauth2/idpresponse"] := by
  refine ⟨?_, rfl, rfl⟩
  show ["https://" ++ lowerString "ABC123.elb.amazonaws.com" ++ "/oauth2/idpresponse"] =
    ["https://abc123.elb.amazonaws.com/oauth2/idpresponse"]
  decide

/-- C7 code behaviour at the failing point: rdsInstance.grantConnect is
called twice on the init-path worker and never on the change-path worker,
so the change-path worker lacks the connect grant the claim requires; the
remaining conjuncts of the claim do hold: both workers carry the
SecretsManagerReadWrite policy, neither environment carries a password
(only DB_NAME, SQS_QUEUE_URL, DDL_SOURCE_BUCKET), and the database
credentials come from a generated secret with no password literal. -/
theorem c7_connect_grant_gap (p : RdsDdlAutomationStackProps) :
    (mkRdsDdlAutomationStack p).rdsConnectGrants =
      [(mkRdsDdlAutomationStack p).ddlInitDeployFn.constructId,
       (mkRdsDdlAutomationStack p).ddlInitDeployFn.constructId] ∧
    (mkRdsDdlAutomationStack p).ddlChangeFn.constructId ∉
      (mkRdsDdlAutomationStack p).rdsConnectGrants ∧
    "SecretsManagerReadWrite" ∈ (mkRdsDdlAutomationStack p).initFnManagedPolicies ∧
    "SecretsManagerReadWrite" ∈ (mkRdsDdlAutomationStack p).changeFnManagedPolicies ∧
    (mkRdsDdlAutomationStack p).ddlInitDeployFn.environment.map Prod.fst =
      ["DB_NAME", "SQS_QUEUE_URL", "DDL_SOURCE_BUCKET"] ∧
    (mkRdsDdlAutomationStack p).ddlChangeFn.environment.map Prod.fst =
      ["DB_NAME", "SQS_QUEUE_URL", "DDL_SOURCE_BUCKET"] ∧
    mkRDSStack.dbInstance.credentials =
      DBCredentials.fromGeneratedSecret "postgres" ∧
    mkRDSStack.dbInstance.credentials.passwordLiteral = none := by
  refine ⟨rfl, ?_, ?_, ?_, rfl, rfl, rfl, rfl⟩
  · show "ddlChangeFn" ∉ (["ddlDeployFn", "ddlDeployFn"] : List String)
    decide
  · show "SecretsManagerReadWrite" ∈ (["SecretsManagerReadWrite"] : List String)
    decide
  · show "SecretsManagerReadWrite" ∈
      (["SecretsManagerReadWrite", "AmazonRDSReadOnlyAccess"] : List String)
    decide

/-- C8: both DDL workers carry exactly the database identifier, the queue
endpoint and the document-store location in their environment, and the
change detector carries exactly the queue endpoint it publishes to. -/
theorem c8_environment_wiring (p : RdsDdlAutomationStackProps) :
    (mkRdsDdlAutomationStack p).ddlInitDeployFn.environment =
      [("DB_NAME", p.dbName),
       ("SQS_QUEUE_URL", p.ddlTriggerQueue.queueUrl),
       ("DDL_SOURCE_BUCKET", p.ddlSourceS3BucketName)] ∧
    (mkRdsDdlAutomationStack p).ddlChangeFn.environment =
      [("DB_NAME", p.dbName),
       ("SQS_QUEUE_URL", p.ddlTriggerQueue.queueUrl),
       ("DDL_SOURCE_BUCKET", p.ddlSourceS3BucketName)] ∧
    rdsDdlTriggerFn.environment =
      [("RDS_DDL_QUEUE_URL", rdsDdlDetectionQueue.queueUrl)] :=
  ⟨rfl, rfl, rfl⟩

/-- C9: BaseInfraStack construction errors on an unsupported non-empty
region, defaults an unset region to us-east-1 and then passes the region
check, errors when the certificate name is undefined or empty, and errors
when the Cognito domain is undefined or empty. -/
theorem c9_env_validation (account : String) (env : BaseEnv) :
    (∀ r, env.cdkDefaultRegion = some r → r ∉ validRegions → r ≠ "" →
      mkBaseInfraStack account env = Except.error regionErrMsg) ∧
    (env.cdkDefaultRegion = none →
      resolveRegion env = "us-east-1" ∧
      mkBaseInfraStack account env ≠ Except.error regionErrMsg) ∧
    ((env.iamSelfSignedServerCertName = none ∨
        env.iamSelfSignedServerCertName = some "") →
      resolveRegion env ∈ validRegions →
      mkBaseInfraStack account env = Except.error certErrMsg) ∧
    ((env.cognitoDomainName = none ∨ env.cognitoDomainName = some "") →
      resolveRegion env ∈ validRegions →
      (∃ c, env.iamSelfSignedServerCertName = some c ∧ c ≠ "") →
      mkBaseInfraStack account env = Except.error cogErrMsg) := by
  refine ⟨?_, ?_, ?_, ?_⟩
  · intro r hr hnot hne
    have hres : resolveRegion env = r := by
      simp [resolveRegion, orDefault, hr, hne]
    unfold mkBaseInfraStack
    rw [hres, if_neg hnot]
  · intro hr
    have hres : resolveRegion env = "us-east-1" := by
      simp [resolveRegion, orDefault, hr]
    refine ⟨hres, ?_⟩
    unfold mkBaseInfraStack
    rw [hres, if_pos (by decide : ("us-east-1" : String) ∈ validRegions)]
    by_cases h1 : isMissing env.iamSelfSignedServerCertName = true
    · rw [if_pos h1]
      intro hEq
      injection hEq with hs
      exact absurd hs (by decide)
    · rw [if_neg h1]
      by_cases h2 : isMissing env.cognitoDomainName = true
      · rw [if_pos h2]
        intro hEq
        injection hEq with hs
        exact absurd hs (by decide)
      · rw [if_neg h2]
        intro hEq
        exact Except.noConfusion hEq
  · intro hcert hreg
    have hm : isMissing env.iamSelfSignedServerCertName = true := by
      rcases hcert with hc | hc <;> simp [isMissing, hc]
    unfold mkBaseInfraStack
    rw [if_pos hreg, if_pos hm]
  · intro hcog hreg hcert
    obtain ⟨c, hc, hcne⟩ := hcert
    have h1 : isMissing env.iamSelfSignedServerCertName = false := by
      simp [isMissing, hc, hcne]
    have h2 : isMissing env.cognitoDomainName = true := by
      rcases hcog with hg | hg <;> simp [isMissing, hg]
    unfold mkBaseInfraStack
    rw [if_pos hreg, if_neg (by simp [h1]), if_pos h2]

/-- C9 witness: concrete environments hit each validation error. -/
theorem c9_env_validation_witness :
    mkBaseInfraStack "111122223333" badRegionEnv = Except.error regionErrMsg ∧
    mkBaseInfraStack "111122223333" noCertEnv = Except.error certErrMsg ∧
    mkBaseInfraStack "111122223333" noCogEnv = Except.error cogErrMsg :=
  ⟨(c9_env_validation "111122223333" badRegionEnv).1 "eu-central-1" rfl
      (by decide) (by decide),
   (c9_env_validation "111122223333" noCertEnv).2.2.1 (Or.inl rfl) (by decide),
   (c9_env_validation "111122223333" noCogEnv).2.2.2 (Or.inr rfl) (by decide)
     ⟨"myServerCert", rfl, by decide⟩⟩

/-- C10: the pgvector update worker and the rag app container agree on
COLLECTION_NAME and DB_CREDS, both derived from the single collection
name of the base stack and the single generated database secret ARN. -/
theorem c10_shared_vector_config (b : BaseInfraStack) :
    ((mkAppStacks b).pgvectorUpdate.pgvectorUpdateFn.environment.lookup
        "COLLECTION_NAME" =
      (mkAppStacks b).ragStack.ragContainerEnvironment.lookup
        "COLLECTION_NAME") ∧
    ((mkAppStacks b).pgvectorUpdate.pgvectorUpdateFn.environment.lookup
        "DB_CREDS" =
      (mkAppStacks b).ragStack.ragContainerEnvironment.lookup "DB_CREDS") ∧
    ((mkAppStacks b).pgvectorUpdate.pgvectorUpdateFn.environment.lookup
        "COLLECTION_NAME" = some b.pgvectorCollectionName) ∧
    ((mkAppStacks b).pgvectorUpdate.pgvectorUpdateFn.environment.lookup
        "DB_CREDS" = some (secretArnOrEmpty (mkAppStacks b).rds.dbInstance)) := by
  refine ⟨?_, ?_, ?_, ?_⟩ <;> rfl

end RagSpec
